import Mathlib

/-!
Shallow embedding of the Pearl contextual-bandit / RL library core
(policy learners, neural-network utilities, replay buffers, environment
adapters) and proofs of the specification claims about it.

Tensors are modelled as rationals indexed by natural numbers (functions
for fixed-rank tensors, lists for batched data); machine modules
(`nn.Linear`, MLPs) become explicit parameter records with executable
forward functions; in-place updates become explicit state passing.
External framework pieces that the repository merely calls
(the optimizer step, the exploration module's `act`, the per-action
`LinearRegression.learn_batch` update and the action space's
`cat_state_tensor`) are universally quantified opaque-function
parameters of the theorems: the claims only constrain the data the
repository feeds to them.
-/

set_option autoImplicit false

namespace Pearl

/-- Dot product of two vectors represented as lists (zips, so extra
trailing entries on either side are ignored, as in shape-checked torch). -/
def dot (a b : List ℚ) : ℚ :=
  ((a.zip b).map (fun p => p.1 * p.2)).sum

/-- Elementwise ReLU on a vector. -/
def reluVec (x : List ℚ) : List ℚ :=
  x.map (fun v => max v 0)

/-- `nn.Linear`: weight matrix (rows) and bias vector. -/
structure LinearLayer where
  weight : List (List ℚ)
  bias : List ℚ

/-- Apply a linear layer to an input vector: `W x + b`. -/
def linearApply (l : LinearLayer) (x : List ℚ) : List ℚ :=
  (l.weight.zip l.bias).map (fun wb => dot wb.1 x + wb.2)

section EnsembleForward

variable {P : Type} [Inhabited P]

/-!
`ensemble_forward` from `neural_networks/common/utils.py`.

The list of structurally identical modules is a list of parameter
records `models : List P` together with one shared forward function
`fwd : P → (ℕ → ℚ) → ℚ` (the module architecture; each module maps a
feature row to a scalar value, as the per-action regressors do).
`torch.func.functional_call(models[0], (params, buffers), data)` runs the
shared architecture with substituted parameters on each row of `data`,
`stack_module_state` stacks the parameter records, and `torch.vmap`
maps over the leading axis.  A rank-3 feature tensor of shape
`(batch_size, ensemble_size, d)` is a function `ℕ → ℕ → ℕ → ℚ`.
-/

/-- `torch.func.functional_call`: run architecture `fwd` with parameters
`p` on every row of the rank-2 tensor `data`. -/
def functionalCall (fwd : P → (ℕ → ℚ) → ℚ) (p : P) (data : ℕ → ℕ → ℚ) : ℕ → ℚ :=
  fun b => fwd p (data b)

/-- `ensemble_forward(models, features)` (utils.py lines 173-189):
permute features to `(ensemble, batch, d)`, vmap the wrapped
`functional_call` over stacked parameters, `view` the result as
`(-1, batch_size)` (row-major flatten then reshape) and permute back to
`(batch_size, ensemble_size)`. -/
def ensemble_forward (fwd : P → (ℕ → ℚ) → ℚ) (models : List P) (batch_size : ℕ)
    (features : ℕ → ℕ → ℕ → ℚ) : ℕ → ℕ → ℚ :=
  let permuted : ℕ → ℕ → ℕ → ℚ := fun i b d => features b i d
  let wrapper : P → (ℕ → ℕ → ℚ) → (ℕ → ℚ) := fun p data => functionalCall fwd p data
  let vmapped : ℕ → ℕ → ℚ := fun i => wrapper (models.getD i default) (permuted i)
  let flat : ℕ → ℚ := fun j => vmapped (j / batch_size) (j % batch_size)
  let viewed : ℕ → ℕ → ℚ := fun i b => flat (i * batch_size + b)
  fun b i => viewed i b

/-- The naive per-action loop the specification describes: entry `(b, i)`
is model `i` applied to its own column `features[b, i]` of the features. -/
def naiveEnsembleForward (fwd : P → (ℕ → ℚ) → ℚ) (models : List P)
    (features : ℕ → ℕ → ℕ → ℚ) : ℕ → ℕ → ℚ :=
  fun b i => fwd (models.getD i default) (fun d => features b i d)

end EnsembleForward

/-!
Target-network soft updates (`neural_networks/common/utils.py`).

A network is represented by its state dictionary: an insertion-ordered
list of key/value pairs, as a Python `dict` (`state_dict()` returns it,
`load_state_dict` installs it).  Parameters are scalars `ℚ`; a tensor
entry of the real state dict behaves identically under the elementwise
`tau * src + (1 - tau) * tgt` combination.
-/

/-- A `state_dict()`: insertion-ordered key/value pairs. -/
abbrev StateDict := List (String × ℚ)

/-- Python dict read `d[k]` (keys present in the uses we model). -/
def dictGet (d : StateDict) (k : String) : ℚ :=
  match d with
  | [] => 0
  | p :: rest => if p.1 = k then p.2 else dictGet rest k

/-- Python `k in d`. -/
def dictHasKey (d : StateDict) (k : String) : Bool :=
  d.any (fun p => p.1 == k)

/-- Python dict assignment `d[k] = v`: overwrite in place when the key
exists, append otherwise. -/
def dictSet (d : StateDict) (k : String) (v : ℚ) : StateDict :=
  if dictHasKey d k then d.map (fun p => if p.1 = k then (k, v) else p)
  else d ++ [(k, v)]

/-- `update_target_network(target_network, source_network, tau)`
(utils.py lines 161-170): iterate over the source state dict's keys,
writing `tau * source[key] + (1 - tau) * target[key]` into the (mutated)
target dict, then `load_state_dict` the result into the target network.
The returned pair is the state after the call: new target network and
the untouched source network. -/
def update_target_network (target_network source_network : StateDict) (tau : ℚ) :
    StateDict × StateDict :=
  let final := source_network.foldl
    (fun acc p =>
      dictSet acc p.1 (tau * dictGet source_network p.1 + (1 - tau) * dictGet acc p.1))
    target_network
  (final, source_network)

/-- `update_target_networks(list_of_target_networks, list_of_source_networks, tau)`
(utils.py lines 194-205): zip the two lists and soft-update each pair. -/
def update_target_networks (list_of_target_networks list_of_source_networks : List StateDict)
    (tau : ℚ) : List StateDict × List StateDict :=
  ((list_of_target_networks.zip list_of_source_networks).map
      (fun p => (update_target_network p.1 p.2 tau).1),
    list_of_source_networks)

theorem dictHasKey_iff_mem (d : StateDict) (k : String) :
    dictHasKey d k = true ↔ k ∈ d.map Prod.fst := by
  simp [dictHasKey, List.any_eq_true]

theorem dictGet_map_ne (d : StateDict) (k k' : String) (v : ℚ) (h : k' ≠ k) :
    dictGet (d.map (fun p => if p.1 = k then (k, v) else p)) k' = dictGet d k' := by
  induction d with
  | nil => rfl
  | cons p rest ih =>
    have hk : ¬ (k = k') := fun he => h he.symm
    by_cases hp : p.1 = k
    · have hp' : ¬ (p.1 = k') := fun he => h (he.symm.trans hp)
      simp only [List.map_cons, if_pos hp, dictGet, if_neg hk, if_neg hp']
      exact ih
    · simp only [List.map_cons, if_neg hp, dictGet]
      by_cases hpk : p.1 = k'
      · simp [hpk]
      · simp only [if_neg hpk]
        exact ih

theorem dictGet_map_self (d : StateDict) (k : String) (v : ℚ)
    (h : dictHasKey d k = true) :
    dictGet (d.map (fun p => if p.1 = k then (k, v) else p)) k = v := by
  induction d with
  | nil => simp [dictHasKey] at h
  | cons p rest ih =>
    by_cases hp : p.1 = k
    · simp [dictGet, hp]
    · simp only [List.map_cons, if_neg hp, dictGet, if_neg hp]
      exact ih (by simpa [dictHasKey, hp] using h)

theorem dictGet_append_single (d : StateDict) (k k' : String) (v : ℚ)
    (h : dictHasKey d k = false) :
    dictGet (d ++ [(k, v)]) k' = if k' = k then v else dictGet d k' := by
  induction d with
  | nil =>
    by_cases hk : k' = k
    · simp [dictGet, hk]
    · have hk' : ¬ (k = k') := fun he => hk he.symm
      simp [dictGet, hk, hk']
  | cons p rest ih =>
    have hmem : ¬ p.1 = k ∧ ∀ a b, (a, b) ∈ rest → ¬ a = k := by
      simpa [dictHasKey] using h
    have hp : ¬ p.1 = k := hmem.1
    have hrest : dictHasKey rest k = false := by
      simpa [dictHasKey] using hmem.2
    by_cases hk : k' = k
    · subst hk
      simp only [List.cons_append, dictGet, if_neg hp, if_pos rfl]
      simpa using ih hrest
    · simp only [List.cons_append, dictGet, if_neg hk]
      by_cases hpk : p.1 = k'
      · simp [hpk]
      · simp only [if_neg hpk, List.append_eq]
        rw [ih hrest, if_neg hk]

theorem dictGet_dictSet (d : StateDict) (k k' : String) (v : ℚ) :
    dictGet (dictSet d k v) k' = if k' = k then v else dictGet d k' := by
  unfold dictSet
  by_cases h : dictHasKey d k = true
  · rw [if_pos h]
    by_cases hk : k' = k
    · subst hk; rw [if_pos rfl, dictGet_map_self d k' v h]
    · rw [if_neg hk, dictGet_map_ne d k k' v hk]
  · rw [if_neg h, dictGet_append_single d k k' v (by simpa using h)]

theorem updateFold_get (s : StateDict) (tau : ℚ) (k : String) :
    ∀ (l : List (String × ℚ)) (acc : StateDict), (l.map Prod.fst).Nodup →
      dictGet (l.foldl
          (fun acc p =>
            dictSet acc p.1 (tau * dictGet s p.1 + (1 - tau) * dictGet acc p.1)) acc) k =
        if k ∈ l.map Prod.fst then tau * dictGet s k + (1 - tau) * dictGet acc k
        else dictGet acc k := by
  intro l
  induction l with
  | nil => intro acc _; simp
  | cons p rest ih =>
    intro acc hnodup
    have hrest : (rest.map Prod.fst).Nodup := (List.nodup_cons.mp (by simpa using hnodup)).2
    have hpnotin : p.1 ∉ rest.map Prod.fst := (List.nodup_cons.mp (by simpa using hnodup)).1
    simp only [List.foldl_cons]
    rw [ih _ hrest]
    by_cases hmem : k ∈ rest.map Prod.fst
    · have hne : k ≠ p.1 := fun h => hpnotin (h ▸ hmem)
      rw [if_pos hmem, if_pos (by simp [hmem]), dictGet_dictSet, if_neg hne]
    · rw [if_neg hmem, dictGet_dictSet]
      by_cases hk : k = p.1
      · subst hk
        rw [if_pos rfl, if_pos (by simp)]
      · rw [if_neg hk, if_neg (by simp [hk, hmem])]

/-!
`DisjointLinearBandit.learn_batch`
(`core/contextual_bandits/policy_learners/disjoint_linear_bandit.py`).

Each per-action regressor is an abstract state `S`; the out-of-repo
`LinearRegression.learn_batch` update is an explicit function argument
(the claim constrains only the data the bandit feeds to it).
-/

/-- Transition batch for the disjoint linear bandit; per the class
docstring, `action` holds action indices, not action values. -/
structure IndexedTransitionBatch where
  state : List (List ℚ)
  action : List ℕ
  reward : List ℚ
  weight : Option (List ℚ)

/-- `torch.nonzero(batch.action == action_idx, as_tuple=True)[0]`: the
increasing list of row indices whose action index equals `action_idx`. -/
def matchingIndices (action : List ℕ) (action_idx : ℕ) : List ℕ :=
  (List.range action.length).filter (fun j => action.getD j 0 == action_idx)

/-- `torch.index_select(x, dim=0, index=index)`. -/
def indexSelect {α : Type} [Inhabited α] (x : List α) (index : List ℕ) : List α :=
  index.map (fun j => x.getD j default)

/-- `DisjointLinearBandit.learn_batch(batch)` (lines 51-93): for each
action index, select the rows of the batch with that action, build the
context by concatenating the selected states with the action's expanded
feature vector, select the rewards (and weights, defaulting to ones),
update that action's regressor, and return an empty dictionary.
Regressors whose index never occurs are skipped (`continue`). -/
def DisjointLinearBandit.learn_batch {S : Type}
    (lr_learn_batch : S → List (List ℚ) → List ℚ → List ℚ → S)
    (action_features : ℕ → List ℚ)
    (linear_regressions : List S) (batch : IndexedTransitionBatch) :
    List S × List (String × ℚ) :=
  (linear_regressions.mapIdx (fun action_idx linear_regression =>
      let index := matchingIndices batch.action action_idx
      if index = [] then linear_regression
      else
        let state := indexSelect batch.state index
        let expanded_action := List.replicate state.length (action_features action_idx)
        let context := (state.zip expanded_action).map (fun p => p.1 ++ p.2)
        let reward := indexSelect batch.reward index
        let weight := match batch.weight with
          | some w => indexSelect w index
          | none => List.replicate reward.length 1
        lr_learn_batch linear_regression context reward weight),
    [])

theorem matchingIndices_eq_nil_iff (action : List ℕ) (i : ℕ) :
    matchingIndices action i = [] ↔ i ∉ action := by
  unfold matchingIndices
  rw [List.filter_eq_nil_iff]
  constructor
  · intro h hmem
    obtain ⟨j, hj, hje⟩ := List.mem_iff_getElem.mp hmem
    refine h j (List.mem_range.mpr hj) ?_
    rw [beq_iff_eq, List.getD_eq_getElem _ _ hj]
    exact hje
  · intro h j hj
    simp only [beq_iff_eq]
    intro he
    have hjl : j < action.length := List.mem_range.mp hj
    rw [List.getD_eq_getElem _ _ hjl] at he
    exact h (he ▸ List.getElem_mem hjl)

theorem zip_replicate_append (rows : List (List ℚ)) (feat : List ℚ) :
    ((rows.zip (List.replicate rows.length feat)).map (fun p => p.1 ++ p.2)) =
      rows.map (fun row => row ++ feat) := by
  induction rows with
  | nil => rfl
  | cons r rest ih =>
    simp only [List.length_cons, List.replicate_succ, List.zip_cons_cons, List.map_cons]
    rw [ih]

/-!
`VanillaValueNetwork` (`pearl/neural_networks/value_networks.py`) and
`DeepBandit.learn_batch`
(`core/contextual_bandits/policy_learners/deep_bandit.py`).
-/

/-- `VanillaValueNetwork.__init__`: `fc1`, a `Sequential` of hidden
Linear+ReLU pairs, and `fc2`. -/
structure VanillaValueNetwork where
  fc1 : LinearLayer
  hiddens : List LinearLayer
  fc2 : LinearLayer

/-- `VanillaValueNetwork.forward` (value_networks.py lines 23-26):
`fc2(hiddens(relu(fc1(x))))` on one input row. -/
def VanillaValueNetwork.forward (net : VanillaValueNetwork) (x : List ℚ) : List ℚ :=
  let value := reluVec (linearApply net.fc1 x)
  let value := net.hiddens.foldl (fun v l => reluVec (linearApply l v)) value
  linearApply net.fc2 value

/-- `torch.nn.MSELoss()` with the default mean reduction, between two
flat tensors with the same number of elements. -/
def mseLoss (input target : List ℚ) : ℚ :=
  (((input.zip target).map (fun p => (p.1 - p.2) ^ 2)).sum) / target.length

/-- Transition batch with action feature vectors, as `DeepBandit` and
`PolicyGradient` consume it. -/
structure TransitionBatch where
  state : List (List ℚ)
  action : List (List ℚ)
  reward : List ℚ

/-- `DeepBandit.learn_batch(batch)` (deep_bandit.py lines 55-69): feed
`torch.cat([batch.state, batch.action], dim=1)` through the value
network, `view` the output to the reward's shape (row-major flatten),
take the MSE loss against `batch.reward`, perform one optimizer step
(`AdamW` lives in torch; it is the explicit function argument
`optimizer_step`, applied to the pre-update network and the loss built
from it), and return the loss value under the key "loss". -/
def DeepBandit.learn_batch
    (deep_represent_layers : VanillaValueNetwork)
    (optimizer_step : VanillaValueNetwork → ℚ → VanillaValueNetwork)
    (batch : TransitionBatch) : VanillaValueNetwork × List (String × ℚ) :=
  let input_features := (batch.state.zip batch.action).map (fun p => p.1 ++ p.2)
  let current_values := (input_features.map deep_represent_layers.forward).flatten
  let expected_values := batch.reward
  let loss := mseLoss current_values expected_values
  let stepped := optimizer_step deep_represent_layers loss
  (stepped, [("loss", loss)])

theorem sq_diff_sum_eq (a : List ℚ) :
    ∀ b : List ℚ, a.length = b.length →
      ((a.zip b).map (fun p => (p.1 - p.2) ^ 2)).sum =
        ((List.range b.length).map (fun j => (a.getD j 0 - b.getD j 0) ^ 2)).sum := by
  induction a with
  | nil =>
    intro b hb
    have : b = [] := List.eq_nil_of_length_eq_zero hb.symm
    subst this
    rfl
  | cons x xs ih =>
    intro b hb
    cases b with
    | nil => simp at hb
    | cons y ys =>
      have hxy : xs.length = ys.length := by simpa using hb
      simp only [List.zip_cons_cons, List.map_cons, List.sum_cons, List.length_cons,
        List.range_succ_eq_map, List.map_map]
      rw [ih ys hxy]
      refine congrArg (fun t => (x - y) ^ 2 + t) ?_
      refine congrArg List.sum (List.map_congr_left fun j hj => ?_)
      simp [Function.comp]

/-!
`PolicyGradient.learn_batch` (`pearl/policy_learners/policy_gradient.py`).
-/

/-- `PolicyGradient.learn_batch(batch)` (policy_gradient.py lines
98-120), shapes included.  `action_probs` has shape `(B, A)`;
`policy_propensities = sum(action_probs * action_batch, dim=1, keepdim=True)`
has shape `(B, 1)`; `return_batch = batch.reward` has shape `(B,)` (the
in-code comment); torch broadcasting therefore aligns `(B, 1)` with
`(1, B)`, so `negative_log_probs * return_batch` is the `(B, B)` tensor
of all pairwise products and `torch.sum` adds them all.  The two shape
assertions become an `Option` result; the actor network (out of repo),
`torch.log` and the optimizer step are explicit function arguments.
`loss.mean()` of the scalar loss is the scalar itself. -/
def PolicyGradient.learn_batch
    (actor : List ℚ → List ℚ) (log : ℚ → ℚ)
    (optimizer_step : (List ℚ → List ℚ) → ℚ → (List ℚ → List ℚ))
    (batch : TransitionBatch) :
    Option ((List ℚ → List ℚ) × List (String × ℚ)) :=
  let state_batch := batch.state
  let action_batch := batch.action
  let return_batch := batch.reward
  let batch_size := state_batch.length
  if action_batch.length = batch_size ∧ return_batch.length = batch_size then
    let action_probs := state_batch.map actor
    let policy_propensities := (action_probs.zip action_batch).map (fun p => dot p.1 p.2)
    let negative_log_probs := policy_propensities.map (fun v => -(log v))
    let products := negative_log_probs.map (fun nlp => return_batch.map (fun r => nlp * r))
    let loss := (products.map List.sum).sum
    let stepped := optimizer_step actor loss
    some (stepped, [("loss", loss)])
  else none

/-!
Bandit `act` methods (C6).  The exploration module and the action
space's `cat_state_tensor` live outside the repository sources; they are
explicit function arguments.
-/

/-- The discrete action space data the `act` methods inspect. -/
structure DiscreteActionSpace where
  n : ℕ
  action_dim : ℕ

/-- `DeepBandit.act(subjective_state, action_space, exploit)`
(deep_bandit.py lines 71-96): assert `action_space.action_dim > 0`,
build `new_feature = action_space.cat_state_tensor(subjective_state)`
(a `(batch, n, feature)` tensor), run the value network over it,
`squeeze` (flatten) the values, assert
`values.numel() == new_feature.shape[0] * action_count`, and return
exactly what the exploration module's `act` returns on those values.
Failed assertions are `none`. -/
def DeepBandit.act {σ Act : Type}
    (deep_represent_layers : VanillaValueNetwork)
    (exploration_act : σ → DiscreteActionSpace → List ℚ → Act)
    (cat_state_tensor : σ → List (List (List ℚ)))
    (subjective_state : σ) (action_space : DiscreteActionSpace) : Option Act :=
  if 0 < action_space.action_dim then
    let action_count := action_space.n
    let new_feature := cat_state_tensor subjective_state
    let values :=
      ((new_feature.map (fun rows => rows.map
          (fun r => deep_represent_layers.forward r))).flatten).flatten
    if values.length = new_feature.length * action_count then
      some (exploration_act subjective_state action_space values)
    else none
  else none

/-- `DisjointLinearBandit.act` (disjoint_linear_bandit.py lines 95-113):
build the `(batch, n, feature)` feature tensor (paired with its batch
size) via `cat_state_tensor`, run `ensemble_forward` over the per-action
regressors, and return exactly the exploration module's choice, passing
the feature tensor as subjective state and the regressors as
representation. -/
def DisjointLinearBandit.act {σ P Act : Type} [Inhabited P]
    (fwd : P → (ℕ → ℚ) → ℚ) (linear_regressions : List P)
    (exploration_act :
      ((ℕ → ℕ → ℕ → ℚ) × ℕ) → DiscreteActionSpace → (ℕ → ℕ → ℚ) → List P → Act)
    (cat_state_tensor : σ → (ℕ → ℕ → ℕ → ℚ) × ℕ)
    (subjective_state : σ) (action_space : DiscreteActionSpace) : Act :=
  let feature := cat_state_tensor subjective_state
  let values := ensemble_forward fwd linear_regressions feature.2 feature.1
  exploration_act feature action_space values linear_regressions

/-!
Environments (`pearl/utils/environments.py`) and the replay buffer base
class (`replay_buffers/replay_buffer.py`).
-/

/-- `ActionResult` (pearl/api): the observation together with reward,
termination/truncation flags and info dict. -/
structure ActionResult (O : Type) where
  observation : O
  reward : ℚ
  terminated : Bool
  truncated : Bool
  info : List (String × ℚ)
deriving DecidableEq

/-- A base environment as the box-observation adapters see it: an
answer for every `step` call and a `reset` answer (observation and
action space). -/
structure Environment (O A AS : Type) where
  step : A → ActionResult O
  reset : O × AS

/-- `BoxObservationsEnvironmentBase.step` (environments.py lines 72-76):
step the base environment, then overwrite only the `observation` field
with its tensor conversion. -/
def BoxObservationsEnvironmentBase.step {A AS : Type}
    (base_environment : Environment ℕ A AS)
    (compute_tensor_observation : ℕ → List ℚ) (action : A) : ActionResult (List ℚ) :=
  let action_result := base_environment.step action
  { observation := compute_tensor_observation action_result.observation,
    reward := action_result.reward,
    terminated := action_result.terminated,
    truncated := action_result.truncated,
    info := action_result.info }

/-- `BoxObservationsEnvironmentBase.reset` (lines 78-81): reset the base
environment, convert only the observation, pass the action space
through. -/
def BoxObservationsEnvironmentBase.reset {A AS : Type}
    (base_environment : Environment ℕ A AS)
    (compute_tensor_observation : ℕ → List ℚ) : List ℚ × AS :=
  (compute_tensor_observation base_environment.reset.1, base_environment.reset.2)

/-- `BoxObservationsFromDiscrete.compute_tensor_observation`:
`torch.tensor([observation], dtype=torch.float32)`. -/
def BoxObservationsFromDiscrete.compute_tensor_observation (observation : ℕ) : List ℚ :=
  [(observation : ℚ)]

/-- `OneHotObservationsFromDiscrete.compute_tensor_observation`
(lines 130-137): `F.one_hot(observation, n).float()` where `n` is the
base environment's discrete observation-space size. -/
def OneHotObservationsFromDiscrete.compute_tensor_observation (n observation : ℕ) :
    List ℚ :=
  (List.range n).map (fun j => if j = observation then 1 else 0)

/-- `FixedNumberOfStepsEnvironment.__init__` state (environments.py
lines 15-39): the step counter and the configured number of steps. -/
structure FixedNumberOfStepsEnvironment where
  number_of_steps_so_far : ℕ
  number_of_steps : ℕ

/-- Its action space: `DiscreteActionSpace([True, False])`, stored at
construction. -/
def FixedNumberOfStepsEnvironment.action_space
    (_ : FixedNumberOfStepsEnvironment) : List Bool :=
  [true, false]

/-- `FixedNumberOfStepsEnvironment.step(action)`: increment the counter
and return it as both observation and reward, always terminated and
truncated, empty info. -/
def FixedNumberOfStepsEnvironment.step (env : FixedNumberOfStepsEnvironment)
    (_action : Bool) : FixedNumberOfStepsEnvironment × ActionResult ℚ :=
  let env1 := { env with number_of_steps_so_far := env.number_of_steps_so_far + 1 }
  (env1,
    { observation := (env1.number_of_steps_so_far : ℚ),
      reward := (env1.number_of_steps_so_far : ℚ),
      terminated := true,
      truncated := true,
      info := [] })

/-- `FixedNumberOfStepsEnvironment.reset()`: the current counter and
the action space. -/
def FixedNumberOfStepsEnvironment.reset (env : FixedNumberOfStepsEnvironment) :
    ℕ × List Bool :=
  (env.number_of_steps_so_far, env.action_space)

/-- `FixedNumberOfStepsEnvironment.render()`: prints the counter; the
printed value. -/
def FixedNumberOfStepsEnvironment.render (env : FixedNumberOfStepsEnvironment) : ℕ :=
  env.number_of_steps_so_far

/-!
`mlp_block` (`neural_networks/common/utils.py` lines 22-97), modelled at
the level of module structure (which layers are built, and whether a
layer is wrapped in `ResidualWrapper`), not parameter values.
-/

/-- One component appended to a layer's `nn.Sequential`. -/
inductive LayerPart where
  | linear : ℕ → ℕ → LayerPart
  | layerNorm : ℕ → LayerPart
  | dropoutLayer : ℚ → LayerPart
  | activationLayer : String → LayerPart
  | batchNorm : ℕ → LayerPart
deriving DecidableEq

/-- One MLP layer: its parts, and whether it was wrapped in
`ResidualWrapper`. -/
structure LayerModel where
  parts : List LayerPart
  residual : Bool
deriving DecidableEq

/-- `mlp_block(input_dim, hidden_dims, output_dim, ...)`.  Interior
layers (loop over `range(len(dims) - 2)`) are wrapped in
`ResidualWrapper` only when `in_dim == out_dim`; a mismatch there only
logs a warning (collected in the second component) and keeps the layer
un-wrapped.  For the last layer, the mismatch branch executes
`raise logging.warn(...)`, which raises a `TypeError` (since
`logging.warn` returns `None`, which is not an exception): modelled as
`Except.error`. -/
def mlp_block (input_dim : ℕ) (hidden_dims : List ℕ) (output_dim : ℕ)
    (use_batch_norm : Bool) (use_layer_norm : Bool) (hidden_activation : String)
    (last_activation : Option String) ( dropout_ratio : ℚ)
    (use_skip_connections : Bool) : Except String (List LayerModel × List String) :=
  let dims := input_dim :: hidden_dims ++ [output_dim]
  let build_single := fun (i : ℕ) =>
    let input_dim_current_layer := dims.getD i 0
    let output_dim_current_layer := dims.getD (i + 1) 0
    let single_layers :=
      [LayerPart.linear input_dim_current_layer output_dim_current_layer] ++
        (if use_layer_norm then [LayerPart.layerNorm output_dim_current_layer] else []) ++
        (if dropout_ratio > 0 then [LayerPart.dropoutLayer dropout_ratio] else []) ++
        [LayerPart.activationLayer hidden_activation] ++
        (if use_batch_norm then [LayerPart.batchNorm output_dim_current_layer] else [])
    if use_skip_connections then
      (if input_dim_current_layer = output_dim_current_layer then
        (LayerModel.mk single_layers true, ([] : List String))
      else
        (LayerModel.mk single_layers false,
          ["skip connection not added: layer in_dim and out_dim differ"]))
    else (LayerModel.mk single_layers false, ([] : List String))
  let interior := (List.range (dims.length - 2)).map build_single
  let last_parts :=
    [LayerPart.linear (dims.getD (dims.length - 2) 0) (dims.getD (dims.length - 1) 0)] ++
      (match last_activation with
        | some act => [LayerPart.activationLayer act]
        | none => [])
  if use_skip_connections then
    (if dims.getD (dims.length - 2) 0 = dims.getD (dims.length - 1) 0 then
      Except.ok ((interior.map Prod.fst) ++ [LayerModel.mk last_parts true],
        (interior.map Prod.snd).flatten)
    else Except.error "TypeError: exceptions must derive from BaseException")
  else
    Except.ok ((interior.map Prod.fst) ++ [LayerModel.mk last_parts false],
      (interior.map Prod.snd).flatten)

/-- `ReplayBuffer.empty` (replay_buffer.py lines 20-23): despite the
declared `None` return annotation the body returns `len(self) == 0`, a
boolean; a buffer is abstracted to its `__len__` value. -/
def ReplayBuffer.empty (len : ℕ) : Bool :=
  len == 0

theorem cons_append_getD_penultimate (a out : ℕ) (hd : List ℕ) (h : hd ≠ []) :
    (a :: hd ++ [out]).getD ((a :: hd ++ [out]).length - 2) 0 = hd.getLast h := by
  cases hd with
  | nil => exact absurd rfl h
  | cons z zs =>
    have hlen : (a :: (z :: zs) ++ [out]).length - 2 = zs.length + 1 := by
      simp
    rw [hlen, List.getD_append _ _ _ _ (by simp), List.getD_cons_succ,
      List.getD_eq_getElem _ _ (by simp)]
    exact (List.getLast_eq_getElem _ _).symm

theorem cons_append_getD_last (a out : ℕ) (hd : List ℕ) :
    (a :: hd ++ [out]).getD ((a :: hd ++ [out]).length - 1) 0 = out := by
  have hlen : (a :: hd ++ [out]).length - 1 = hd.length + 1 := by simp
  rw [hlen, List.getD_append_right _ _ _ _ (by simp)]
  simp

end Pearl

namespace Pearl

/-- C1: For every non-empty list of structurally identical modules
(shared architecture `fwd`, per-module parameters `models`) and every
feature tensor of shape `(batch_size, n, d)`, the batched
`stack_module_state` + `vmap` ensemble forward agrees at every in-range
entry `(b, i)` with the naive loop running each per-action model on its
own column of the features. -/
theorem ensemble_forward_eq_naive {P : Type} [Inhabited P]
    (fwd : P → (ℕ → ℚ) → ℚ) (models : List P) (batch_size : ℕ)
    (features : ℕ → ℕ → ℕ → ℚ) (b i : ℕ)
    (hmodels : models ≠ []) (hb : b < batch_size) (hi : i < models.length) :
    ensemble_forward fwd models batch_size features b i =
      naiveEnsembleForward fwd models features b i := by
  have hpos : 0 < batch_size := lt_of_le_of_lt (Nat.zero_le b) hb
  unfold ensemble_forward naiveEnsembleForward
  simp only
  have hdiv : (i * batch_size + b) / batch_size = i := by
    rw [Nat.add_comm, Nat.add_mul_div_right _ _ hpos, Nat.div_eq_of_lt hb, Nat.zero_add]
  have hmod : (i * batch_size + b) % batch_size = b := by
    rw [Nat.add_comm, Nat.add_mul_mod_self_right, Nat.mod_eq_of_lt hb]
  rw [hdiv, hmod]
  rfl

/-- C4: For every transition batch (with as many network output entries
as reward entries, as `view` requires), `DeepBandit.learn_batch` feeds
the concatenation of `batch.state` and `batch.action` through the value
network, computes the mean-squared-error between the reshaped output and
`batch.reward`, performs exactly one optimizer step on that loss, and
returns a dictionary whose only key is "loss", mapped to that MSE value
as computed from the pre-update parameters. -/
theorem deep_bandit_learn_batch_spec
    (deep_represent_layers : VanillaValueNetwork)
    (optimizer_step : VanillaValueNetwork → ℚ → VanillaValueNetwork)
    (batch : TransitionBatch)
    (hlen : ((batch.state.zip batch.action).map
        (fun p => deep_represent_layers.forward (p.1 ++ p.2))).flatten.length =
      batch.reward.length) :
    DeepBandit.learn_batch deep_represent_layers optimizer_step batch =
      (optimizer_step deep_represent_layers
          ((((List.range batch.reward.length).map (fun j =>
              (((batch.state.zip batch.action).map
                  (fun p => deep_represent_layers.forward (p.1 ++ p.2))).flatten.getD j 0 -
                batch.reward.getD j 0) ^ 2)).sum) / batch.reward.length),
        [("loss",
          (((List.range batch.reward.length).map (fun j =>
              (((batch.state.zip batch.action).map
                  (fun p => deep_represent_layers.forward (p.1 ++ p.2))).flatten.getD j 0 -
                batch.reward.getD j 0) ^ 2)).sum) / batch.reward.length)]) := by
  unfold DeepBandit.learn_batch mseLoss
  simp only [List.map_map, Function.comp]
  rw [sq_diff_sum_eq _ _ (by simpa [List.map_map, Function.comp] using hlen)]
  rfl

/-- Witness for C4: a one-hidden-pass identity-like network on a
two-row batch; the MSE there is zero and the "loss" entry records it. -/
theorem deep_bandit_learn_batch_spec_witness :
    ((((⟨[[1], [2]], [[0], [0]], [1, 2]⟩ : TransitionBatch).state.zip
          (⟨[[1], [2]], [[0], [0]], [1, 2]⟩ : TransitionBatch).action).map
        (fun p =>
          (⟨⟨[[1, 1]], [0]⟩, [], ⟨[[1]], [0]⟩⟩ : VanillaValueNetwork).forward
            (p.1 ++ p.2))).flatten.length =
        (⟨[[1], [2]], [[0], [0]], [1, 2]⟩ : TransitionBatch).reward.length) ∧
      DeepBandit.learn_batch ⟨⟨[[1, 1]], [0]⟩, [], ⟨[[1]], [0]⟩⟩ (fun n _ => n)
          ⟨[[1], [2]], [[0], [0]], [1, 2]⟩ =
        ((fun (n : VanillaValueNetwork) (_ : ℚ) => n) ⟨⟨[[1, 1]], [0]⟩, [], ⟨[[1]], [0]⟩⟩
            ((((List.range ((⟨[[1], [2]], [[0], [0]], [1, 2]⟩ : TransitionBatch).reward.length)).map
                (fun j =>
                  ((((⟨[[1], [2]], [[0], [0]], [1, 2]⟩ : TransitionBatch).state.zip
                        (⟨[[1], [2]], [[0], [0]], [1, 2]⟩ : TransitionBatch).action).map
                      (fun p =>
                        (⟨⟨[[1, 1]], [0]⟩, [], ⟨[[1]], [0]⟩⟩ : VanillaValueNetwork).forward
                          (p.1 ++ p.2))).flatten.getD j 0 -
                    (⟨[[1], [2]], [[0], [0]], [1, 2]⟩ : TransitionBatch).reward.getD j 0) ^ 2)).sum) /
              (⟨[[1], [2]], [[0], [0]], [1, 2]⟩ : TransitionBatch).reward.length),
          [("loss",
            (((List.range ((⟨[[1], [2]], [[0], [0]], [1, 2]⟩ : TransitionBatch).reward.length)).map
                (fun j =>
                  ((((⟨[[1], [2]], [[0], [0]], [1, 2]⟩ : TransitionBatch).state.zip
                        (⟨[[1], [2]], [[0], [0]], [1, 2]⟩ : TransitionBatch).action).map
                      (fun p =>
                        (⟨⟨[[1, 1]], [0]⟩, [], ⟨[[1]], [0]⟩⟩ : VanillaValueNetwork).forward
                          (p.1 ++ p.2))).flatten.getD j 0 -
                    (⟨[[1], [2]], [[0], [0]], [1, 2]⟩ : TransitionBatch).reward.getD j 0) ^ 2)).sum) /
              (⟨[[1], [2]], [[0], [0]], [1, 2]⟩ : TransitionBatch).reward.length)]) :=
  ⟨by rfl,
    deep_bandit_learn_batch_spec ⟨⟨[[1, 1]], [0]⟩, [], ⟨[[1]], [0]⟩⟩ (fun n _ => n)
      ⟨[[1], [2]], [[0], [0]], [1, 2]⟩ (by rfl)⟩

/-- C2: For every transition batch, `DisjointLinearBandit.learn_batch`
updates regressor `i` using exactly the rows of the batch whose action
index equals `i` — with context the selected states each concatenated
with action `i`'s feature vector, and weight an all-ones tensor of the
selected rewards' shape when `batch.weight` is `None` — leaves every
regressor whose action index does not occur in `batch.action` completely
unchanged, and always returns an empty dictionary. -/
theorem disjoint_linear_bandit_learn_batch_spec {S : Type}
    (lr_learn_batch : S → List (List ℚ) → List ℚ → List ℚ → S)
    (action_features : ℕ → List ℚ) (linear_regressions : List S)
    (batch : IndexedTransitionBatch) (i : ℕ) (d : S)
    (hi : i < linear_regressions.length) :
    (DisjointLinearBandit.learn_batch lr_learn_batch action_features
        linear_regressions batch).2 = [] ∧
      (i ∉ batch.action →
        (DisjointLinearBandit.learn_batch lr_learn_batch action_features
            linear_regressions batch).1.getD i d = linear_regressions.getD i d) ∧
      (i ∈ batch.action →
        (DisjointLinearBandit.learn_batch lr_learn_batch action_features
            linear_regressions batch).1.getD i d =
          lr_learn_batch (linear_regressions.getD i d)
            ((indexSelect batch.state (matchingIndices batch.action i)).map
              (fun row => row ++ action_features i))
            (indexSelect batch.reward (matchingIndices batch.action i))
            (match batch.weight with
              | some w => indexSelect w (matchingIndices batch.action i)
              | none =>
                List.replicate
                  (indexSelect batch.reward (matchingIndices batch.action i)).length
                  1)) := by
  unfold DisjointLinearBandit.learn_batch
  have hlen : i < (linear_regressions.mapIdx (fun action_idx linear_regression =>
      let index := matchingIndices batch.action action_idx
      if index = [] then linear_regression
      else
        let state := indexSelect batch.state index
        let expanded_action := List.replicate state.length (action_features action_idx)
        let context := (state.zip expanded_action).map (fun p => p.1 ++ p.2)
        let reward := indexSelect batch.reward index
        let weight := match batch.weight with
          | some w => indexSelect w index
          | none => List.replicate reward.length 1
        lr_learn_batch linear_regression context reward weight)).length := by
    simpa using hi
  refine ⟨rfl, ?_, ?_⟩
  · intro hmem
    have hnil : matchingIndices batch.action i = [] :=
      (matchingIndices_eq_nil_iff _ _).mpr hmem
    rw [List.getD_eq_getElem _ _ hlen, List.getElem_mapIdx]
    simp only [hnil, eq_self_iff_true, ite_true]
    rw [List.getD_eq_getElem _ _ hi]
  · intro hmem
    have hne : ¬ matchingIndices batch.action i = [] :=
      fun h => ((matchingIndices_eq_nil_iff _ _).mp h) hmem
    rw [List.getD_eq_getElem _ _ hlen, List.getElem_mapIdx]
    simp only [if_neg hne]
    rw [List.getD_eq_getElem _ _ hi, zip_replicate_append]

/-- Witness for C2 at a concrete input: two scalar regressors, a batch
whose two rows both play action 1, no weights. -/
theorem disjoint_linear_bandit_learn_batch_spec_witness :
    1 < ([(5 : ℚ), 7]).length ∧
      ((DisjointLinearBandit.learn_batch (fun s x y w => s + x.length + y.sum + w.sum)
          (fun a => [(a : ℚ)]) [(5 : ℚ), 7] ⟨[[1], [2]], [1, 1], [3, 4], none⟩).2 = [] ∧
        (1 ∉ ([1, 1] : List ℕ) →
          (DisjointLinearBandit.learn_batch (fun s x y w => s + x.length + y.sum + w.sum)
              (fun a => [(a : ℚ)]) [(5 : ℚ), 7]
              ⟨[[1], [2]], [1, 1], [3, 4], none⟩).1.getD 1 0 =
            ([(5 : ℚ), 7]).getD 1 0) ∧
        (1 ∈ ([1, 1] : List ℕ) →
          (DisjointLinearBandit.learn_batch (fun s x y w => s + x.length + y.sum + w.sum)
              (fun a => [(a : ℚ)]) [(5 : ℚ), 7]
              ⟨[[1], [2]], [1, 1], [3, 4], none⟩).1.getD 1 0 =
            (fun (s : ℚ) (x : List (List ℚ)) (y w : List ℚ) =>
                s + x.length + y.sum + w.sum) (([(5 : ℚ), 7]).getD 1 0)
              ((indexSelect ([[1], [2]] : List (List ℚ)) (matchingIndices [1, 1] 1)).map
                (fun row => row ++ [(1 : ℚ)]))
              (indexSelect ([3, 4] : List ℚ) (matchingIndices [1, 1] 1))
              (List.replicate
                (indexSelect ([3, 4] : List ℚ) (matchingIndices [1, 1] 1)).length 1))) :=
  ⟨by simp,
    disjoint_linear_bandit_learn_batch_spec (fun s x y w => s + x.length + y.sum + w.sum)
      (fun a => [(a : ℚ)]) [(5 : ℚ), 7] ⟨[[1], [2]], [1, 1], [3, 4], none⟩ 1 0 (by simp)⟩

/-- C3: For every target and source network whose state dictionaries
have the same keys (no duplicates) and every scalar `tau`,
`update_target_network` replaces every entry of the target state dict by
`tau * source_value + (1 - tau) * target_value` and leaves the source
network unchanged; `update_target_networks` applies this pairwise over
two equal-length lists of networks. -/
theorem update_target_network_soft_update (t s : StateDict) (tau : ℚ)
    (ts ss : List StateDict)
    (hnodup : (s.map Prod.fst).Nodup) (hkeys : t.map Prod.fst = s.map Prod.fst) :
    (∀ k, k ∈ t.map Prod.fst →
        dictGet (update_target_network t s tau).1 k =
          tau * dictGet s k + (1 - tau) * dictGet t k) ∧
      (update_target_network t s tau).2 = s ∧
      (∀ i, i < ts.length → i < ss.length →
        (update_target_networks ts ss tau).1.getD i [] =
          (update_target_network (ts.getD i []) (ss.getD i []) tau).1) ∧
      (update_target_networks ts ss tau).2 = ss := by
  refine ⟨?_, rfl, ?_, rfl⟩
  · intro k hk
    have hk' : k ∈ s.map Prod.fst := hkeys ▸ hk
    unfold update_target_network
    simp only
    rw [updateFold_get s tau k s t hnodup, if_pos hk']
  · intro i h1 h2
    unfold update_target_networks
    simp only
    have hlen : i < (ts.zip ss).length := by
      rw [List.length_zip]; omega
    rw [List.getD_eq_getElem _ _ (by simpa using hlen), List.getElem_map,
      List.getElem_zip, List.getD_eq_getElem _ _ h1, List.getD_eq_getElem _ _ h2]

/-- Witness for C3 at concrete two-entry state dicts and one-element
network lists, with `tau = 1/2`. -/
theorem update_target_network_soft_update_witness :
    ((([("w", (10 : ℚ)), ("b", 20)]).map Prod.fst).Nodup ∧
        ([("w", (2 : ℚ)), ("b", 4)]).map Prod.fst =
          ([("w", (10 : ℚ)), ("b", 20)]).map Prod.fst) ∧
      ((∀ k, k ∈ ([("w", (2 : ℚ)), ("b", 4)]).map Prod.fst →
          dictGet (update_target_network [("w", 2), ("b", 4)] [("w", 10), ("b", 20)]
              (1 / 2)).1 k =
            1 / 2 * dictGet [("w", 10), ("b", 20)] k +
              (1 - 1 / 2) * dictGet [("w", 2), ("b", 4)] k) ∧
        (update_target_network [("w", 2), ("b", 4)] [("w", 10), ("b", 20)] (1 / 2)).2 =
          [("w", 10), ("b", 20)] ∧
        (∀ i, i < ([[("w", (2 : ℚ)), ("b", 4)]]).length →
          i < ([[("w", (10 : ℚ)), ("b", 20)]]).length →
          (update_target_networks [[("w", 2), ("b", 4)]] [[("w", 10), ("b", 20)]]
              (1 / 2)).1.getD i [] =
            (update_target_network (([[("w", (2 : ℚ)), ("b", 4)]]).getD i [])
                (([[("w", (10 : ℚ)), ("b", 20)]]).getD i []) (1 / 2)).1) ∧
        (update_target_networks [[("w", 2), ("b", 4)]] [[("w", 10), ("b", 20)]]
            (1 / 2)).2 = [[("w", 10), ("b", 20)]]) :=
  ⟨⟨by simp, by simp⟩,
    update_target_network_soft_update [("w", 2), ("b", 4)] [("w", 10), ("b", 20)] (1 / 2)
      [[("w", 2), ("b", 4)]] [[("w", 10), ("b", 20)]] (by simp) (by simp)⟩

/-- C5 (code-bug evidence): at a concrete batch of size 2
(identity actor, `log = id`, identity optimizer step) the embedded
`PolicyGradient.learn_batch` returns under "loss" the all-pairs sum
`(Σ_b -log p_b) * (Σ_b r_b) = -9`, because the `(B, 1)` `keepdim=True`
propensity column broadcasts against the `(B,)` return batch to a
`(B, B)` tensor; the elementwise sum `Σ_b (-log p_b) * r_b` that the
claim specifies is `-5 ≠ -9`. -/
theorem policy_gradient_learn_batch_outer_product :
    (PolicyGradient.learn_batch (fun s => s) (fun v => v) (fun a _ => a)
          ⟨[[1], [2]], [[1], [1]], [1, 2]⟩).map Prod.snd =
        some [("loss", -9)] ∧
      (((((([[(1 : ℚ)], [2]]).map (fun s => s)).zip [[(1 : ℚ)], [1]]).map
            (fun p => dot p.1 p.2)).zip [(1 : ℚ), 2]).map
          (fun p => -(p.1) * p.2)).sum = -5 ∧
      (-9 : ℚ) ≠ -5 := by
  refine ⟨?_, by norm_num [dot], by norm_num⟩
  rw [show (PolicyGradient.learn_batch (fun s => s) (fun v => v) (fun a _ => a)
      ⟨[[1], [2]], [[1], [1]], [1, 2]⟩ :
        Option ((List ℚ → List ℚ) × List (String × ℚ))) =
      some ((fun s => s), [("loss", -9)]) from ?_]
  · rfl
  · unfold PolicyGradient.learn_batch
    norm_num [dot]

/-- C6: `DeepBandit.act` and `DisjointLinearBandit.act` never select an
action themselves: each computes the per-action value tensor from the
current model and returns exactly the action returned by the exploration
module's `act` on those values; `DeepBandit.act` additionally requires
`action_space.action_dim > 0` and that the number of computed values
equals batch size times the number of actions, failing its assertions
otherwise. -/
theorem bandit_act_delegates_to_exploration {σ P Act : Type} [Inhabited P]
    (deep_represent_layers : VanillaValueNetwork)
    (exploration_act_deep : σ → DiscreteActionSpace → List ℚ → Act)
    (cat_deep : σ → List (List (List ℚ)))
    (fwd : P → (ℕ → ℚ) → ℚ) (linear_regressions : List P)
    (exploration_act_disjoint :
      ((ℕ → ℕ → ℕ → ℚ) × ℕ) → DiscreteActionSpace → (ℕ → ℕ → ℚ) → List P → Act)
    (cat_disjoint : σ → (ℕ → ℕ → ℕ → ℚ) × ℕ)
    (subjective_state : σ) (action_space : DiscreteActionSpace) :
    (0 < action_space.action_dim →
      (((cat_deep subjective_state).map (fun rows => rows.map
            (fun r => deep_represent_layers.forward r))).flatten).flatten.length =
          (cat_deep subjective_state).length * action_space.n →
      DeepBandit.act deep_represent_layers exploration_act_deep cat_deep
          subjective_state action_space =
        some (exploration_act_deep subjective_state action_space
          ((((cat_deep subjective_state).map (fun rows => rows.map
              (fun r => deep_represent_layers.forward r))).flatten).flatten))) ∧
      (¬ 0 < action_space.action_dim →
        DeepBandit.act deep_represent_layers exploration_act_deep cat_deep
            subjective_state action_space = none) ∧
      (0 < action_space.action_dim →
        ¬ ((((cat_deep subjective_state).map (fun rows => rows.map
              (fun r => deep_represent_layers.forward r))).flatten).flatten.length =
            (cat_deep subjective_state).length * action_space.n) →
        DeepBandit.act deep_represent_layers exploration_act_deep cat_deep
            subjective_state action_space = none) ∧
      DisjointLinearBandit.act fwd linear_regressions exploration_act_disjoint
          cat_disjoint subjective_state action_space =
        exploration_act_disjoint (cat_disjoint subjective_state) action_space
          (ensemble_forward fwd linear_regressions (cat_disjoint subjective_state).2
            (cat_disjoint subjective_state).1) linear_regressions := by
  refine ⟨?_, ?_, ?_, rfl⟩
  · intro h1 h2
    simp only [DeepBandit.act, if_pos h1]
    rw [if_pos h2]
  · intro h1
    simp only [DeepBandit.act, if_neg h1]
  · intro h1 h2
    simp only [DeepBandit.act, if_pos h1]
    rw [if_neg h2]

/-- Witness for C6 at a concrete instantiation: one-feature network,
one action, counting exploration functions. -/
theorem bandit_act_delegates_to_exploration_witness :
    ((0 < (⟨1, 1⟩ : DiscreteActionSpace).action_dim →
      ((((fun (_ : ℕ) => [[[(1 : ℚ)]]]) 0).map (fun rows => rows.map
            (fun r => (⟨⟨[[1]], [0]⟩, [], ⟨[[1]], [0]⟩⟩ : VanillaValueNetwork).forward
              r))).flatten).flatten.length =
          ((fun (_ : ℕ) => [[[(1 : ℚ)]]]) 0).length * (⟨1, 1⟩ : DiscreteActionSpace).n →
      DeepBandit.act ⟨⟨[[1]], [0]⟩, [], ⟨[[1]], [0]⟩⟩
          (fun (_ : ℕ) (_ : DiscreteActionSpace) (v : List ℚ) => v.length)
          (fun (_ : ℕ) => [[[(1 : ℚ)]]]) 0 ⟨1, 1⟩ =
        some ((fun (_ : ℕ) (_ : DiscreteActionSpace) (v : List ℚ) => v.length) 0 ⟨1, 1⟩
          (((((fun (_ : ℕ) => [[[(1 : ℚ)]]]) 0).map (fun rows => rows.map
              (fun r => (⟨⟨[[1]], [0]⟩, [], ⟨[[1]], [0]⟩⟩ : VanillaValueNetwork).forward
                r))).flatten).flatten))) ∧
      (¬ 0 < (⟨1, 1⟩ : DiscreteActionSpace).action_dim →
        DeepBandit.act ⟨⟨[[1]], [0]⟩, [], ⟨[[1]], [0]⟩⟩
            (fun (_ : ℕ) (_ : DiscreteActionSpace) (v : List ℚ) => v.length)
            (fun (_ : ℕ) => [[[(1 : ℚ)]]]) 0 ⟨1, 1⟩ = none) ∧
      (0 < (⟨1, 1⟩ : DiscreteActionSpace).action_dim →
        ¬ (((((fun (_ : ℕ) => [[[(1 : ℚ)]]]) 0).map (fun rows => rows.map
              (fun r => (⟨⟨[[1]], [0]⟩, [], ⟨[[1]], [0]⟩⟩ : VanillaValueNetwork).forward
                r))).flatten).flatten.length =
            ((fun (_ : ℕ) => [[[(1 : ℚ)]]]) 0).length * (⟨1, 1⟩ : DiscreteActionSpace).n) →
        DeepBandit.act ⟨⟨[[1]], [0]⟩, [], ⟨[[1]], [0]⟩⟩
            (fun (_ : ℕ) (_ : DiscreteActionSpace) (v : List ℚ) => v.length)
            (fun (_ : ℕ) => [[[(1 : ℚ)]]]) 0 ⟨1, 1⟩ = none) ∧
      DisjointLinearBandit.act (fun (p : ℚ) (row : ℕ → ℚ) => p * row 0) [(2 : ℚ)]
          (fun (_ : (ℕ → ℕ → ℕ → ℚ) × ℕ) (_ : DiscreteActionSpace) (_ : ℕ → ℕ → ℚ) (r : List ℚ) => r.length) (fun (_ : ℕ) => ((fun (_ : ℕ) (_ : ℕ) (_ : ℕ) => (1 : ℚ)), 1)) 0 ⟨1, 1⟩ =
        (fun (_ : (ℕ → ℕ → ℕ → ℚ) × ℕ) (_ : DiscreteActionSpace) (_ : ℕ → ℕ → ℚ) (r : List ℚ) => r.length) ((fun (_ : ℕ) => ((fun (_ : ℕ) (_ : ℕ) (_ : ℕ) => (1 : ℚ)), 1)) 0)
          (⟨1, 1⟩ : DiscreteActionSpace)
          (ensemble_forward (fun (p : ℚ) (row : ℕ → ℚ) => p * row 0) [(2 : ℚ)]
            ((fun (_ : ℕ) => ((fun (_ : ℕ) (_ : ℕ) (_ : ℕ) => (1 : ℚ)), 1)) 0).2
            ((fun (_ : ℕ) => ((fun (_ : ℕ) (_ : ℕ) (_ : ℕ) => (1 : ℚ)), 1)) 0).1) [(2 : ℚ)]) :=
  bandit_act_delegates_to_exploration ⟨⟨[[1]], [0]⟩, [], ⟨[[1]], [0]⟩⟩
    (fun (_ : ℕ) (_ : DiscreteActionSpace) (v : List ℚ) => v.length)
    (fun (_ : ℕ) => [[[(1 : ℚ)]]]) (fun (p : ℚ) (row : ℕ → ℚ) => p * row 0) [(2 : ℚ)]
    (fun (_ : (ℕ → ℕ → ℕ → ℚ) × ℕ) (_ : DiscreteActionSpace) (_ : ℕ → ℕ → ℚ) (r : List ℚ) => r.length) (fun (_ : ℕ) => ((fun (_ : ℕ) (_ : ℕ) (_ : ℕ) => (1 : ℚ)), 1)) 0 ⟨1, 1⟩

/-- C7: For every base environment and action, the box-observation
adapters' `step` returns the base environment's `ActionResult` with only
the observation replaced by its tensor conversion (the length-1 tensor
for `BoxObservationsFromDiscrete`, the one-hot vector for
`OneHotObservationsFromDiscrete`); reward, terminated, truncated and
info are exactly the base result's, and `reset` likewise converts only
the observation while returning the base environment's action space
unchanged. -/
theorem box_observations_adapter_frame {A AS : Type}
    (base_environment : Environment ℕ A AS) (n : ℕ) (action : A) :
    BoxObservationsEnvironmentBase.step base_environment
        BoxObservationsFromDiscrete.compute_tensor_observation action =
      ActionResult.mk [((base_environment.step action).observation : ℚ)]
        (base_environment.step action).reward
        (base_environment.step action).terminated
        (base_environment.step action).truncated
        (base_environment.step action).info ∧
      BoxObservationsEnvironmentBase.step base_environment
          (OneHotObservationsFromDiscrete.compute_tensor_observation n) action =
        ActionResult.mk
          ((List.range n).map
            (fun j => if j = (base_environment.step action).observation then 1 else 0))
          (base_environment.step action).reward
          (base_environment.step action).terminated
          (base_environment.step action).truncated
          (base_environment.step action).info ∧
      BoxObservationsEnvironmentBase.reset base_environment
          BoxObservationsFromDiscrete.compute_tensor_observation =
        ([(base_environment.reset.1 : ℚ)], base_environment.reset.2) ∧
      BoxObservationsEnvironmentBase.reset base_environment
          (OneHotObservationsFromDiscrete.compute_tensor_observation n) =
        ((List.range n).map (fun j => if j = base_environment.reset.1 then 1 else 0),
          base_environment.reset.2) :=
  ⟨rfl, rfl, rfl, rfl⟩

/-- C9: `ReplayBuffer.empty()` computes `len(self) == 0`: a boolean that
is `True` exactly when `__len__` is zero. -/
theorem replay_buffer_empty_iff (len : ℕ) :
    ReplayBuffer.empty len = true ↔ len = 0 := by
  simp [ReplayBuffer.empty]

/-- C10: For every `FixedNumberOfStepsEnvironment` state and action,
`step` increments `number_of_steps_so_far` by exactly 1 and returns an
`ActionResult` whose observation and reward both equal the new counter
and whose terminated and truncated flags are always `True`; the
configured `number_of_steps` is never read by `step`, `reset` or
`render` (their results are invariant under changing it). -/
theorem fixed_number_of_steps_environment_spec (s n m : ℕ) (action : Bool) :
    FixedNumberOfStepsEnvironment.step ⟨s, n⟩ action =
        (⟨s + 1, n⟩,
          ActionResult.mk ((s + 1 : ℕ) : ℚ) ((s + 1 : ℕ) : ℚ) true true []) ∧
      (FixedNumberOfStepsEnvironment.step ⟨s, n⟩ action).2 =
        (FixedNumberOfStepsEnvironment.step ⟨s, m⟩ action).2 ∧
      (FixedNumberOfStepsEnvironment.step ⟨s, n⟩ action).1.number_of_steps_so_far =
        (FixedNumberOfStepsEnvironment.step ⟨s, m⟩ action).1.number_of_steps_so_far ∧
      (FixedNumberOfStepsEnvironment.reset ⟨s, n⟩ =
        FixedNumberOfStepsEnvironment.reset ⟨s, m⟩) ∧
      (FixedNumberOfStepsEnvironment.render ⟨s, n⟩ =
        FixedNumberOfStepsEnvironment.render ⟨s, m⟩) :=
  ⟨rfl, rfl, rfl, rfl, rfl⟩

/-- C8: For every call to `mlp_block` with `use_skip_connections = True`
in which the last hidden dimension differs from `output_dim`, the
function raises an exception instead of returning a module (the
`raise logging.warn(...)` raises a `TypeError`), whereas the same
dimension mismatch in an interior hidden layer leaves the function
returning a network with that layer un-wrapped (its `ResidualWrapper`
flag is set exactly when the layer's in and out dimensions agree). -/
theorem mlp_block_skip_connection_spec (input_dim : ℕ) (hidden_dims : List ℕ)
    (output_dim : ℕ) (use_batch_norm use_layer_norm : Bool)
    (hidden_activation : String) (last_activation : Option String)
    ( dropout_ratio : ℚ) (h : hidden_dims ≠ []) :
    (hidden_dims.getLast h ≠ output_dim →
      mlp_block input_dim hidden_dims output_dim use_batch_norm use_layer_norm
          hidden_activation last_activation dropout_ratio true =
        Except.error "TypeError: exceptions must derive from BaseException") ∧
      (hidden_dims.getLast h = output_dim →
        ∀ i, i < hidden_dims.length →
          ∃ layers warnings,
            mlp_block input_dim hidden_dims output_dim use_batch_norm use_layer_norm
                hidden_activation last_activation dropout_ratio true =
              Except.ok (layers, warnings) ∧
            (layers.getD i ⟨[], false⟩).residual =
              decide ((input_dim :: hidden_dims ++ [output_dim]).getD i 0 =
                (input_dim :: hidden_dims ++ [output_dim]).getD (i + 1) 0)) := by
  have hpen := cons_append_getD_penultimate input_dim output_dim hidden_dims h
  have hlast := cons_append_getD_last input_dim output_dim hidden_dims
  constructor
  · intro hne
    simp only [mlp_block]
    rw [hpen, hlast, if_pos trivial, if_neg hne]
  · intro heq i hi
    simp only [mlp_block]
    rw [hpen, hlast, if_pos trivial, if_pos heq]
    refine ⟨_, _, rfl, ?_⟩
    have hdl : (input_dim :: hidden_dims ++ [output_dim]).length - 2 =
        hidden_dims.length := by
      simp
    rw [hdl]
    rw [List.getD_append _ _ _ _ (by simp [hi]), List.getD_eq_getElem _ _ (by simp [hi]),
      List.getElem_map, List.getElem_map, List.getElem_range]
    by_cases hde : (input_dim :: hidden_dims ++ [output_dim]).getD i 0 =
        (input_dim :: hidden_dims ++ [output_dim]).getD (i + 1) 0
    · rw [if_pos trivial, if_pos hde]
      exact (decide_eq_true hde).symm
    · rw [if_pos trivial, if_neg hde]
      exact (decide_eq_false hde).symm

/-- Witness for C8: `mlp_block(1, [2, 3], 3, use_skip_connections=True)`:
the last hidden dimension 3 equals the output dimension, so the block is
returned; both interior layers have mismatched dimensions and stay
un-wrapped. -/
theorem mlp_block_skip_connection_spec_witness :
    (([2, 3] : List ℕ) ≠ []) ∧
      ((([2, 3] : List ℕ).getLast (by decide) ≠ 3 →
        mlp_block 1 [2, 3] 3 false false "relu" none 0 true =
          Except.error "TypeError: exceptions must derive from BaseException") ∧
      (([2, 3] : List ℕ).getLast (by decide) = 3 →
        ∀ i, i < ([2, 3] : List ℕ).length →
          ∃ layers warnings,
            mlp_block 1 [2, 3] 3 false false "relu" none 0 true =
              Except.ok (layers, warnings) ∧
            (layers.getD i ⟨[], false⟩).residual =
              decide (((1 : ℕ) :: [2, 3] ++ [3]).getD i 0 =
                ((1 : ℕ) :: [2, 3] ++ [3]).getD (i + 1) 0))) :=
  ⟨by decide,
    mlp_block_skip_connection_spec 1 [2, 3] 3 false false "relu" none 0 (by decide)⟩

/-- Witness for C1 at a concrete input: two scalar-parameter linear
models, batch size 1. -/
theorem ensemble_forward_eq_naive_witness :
    ([(3 : ℚ), 5] ≠ ([] : List ℚ)) ∧ 0 < 1 ∧ 1 < ([(3 : ℚ), 5]).length ∧
      ensemble_forward (fun p row => p * row 0) [(3 : ℚ), 5] 1
          (fun b i d => (b + 2 * i + 3 * d : ℚ)) 0 1 =
        naiveEnsembleForward (fun p row => p * row 0) [(3 : ℚ), 5]
          (fun b i d => (b + 2 * i + 3 * d : ℚ)) 0 1 :=
  ⟨by simp, by omega, by simp,
    ensemble_forward_eq_naive (fun p row => p * row 0) [(3 : ℚ), 5] 1
      (fun b i d => (b + 2 * i + 3 * d : ℚ)) 0 1 (by simp) (by omega) (by simp)⟩

end Pearl
